import Mathlib

/-!
Verification development for the aws-smart-vault repository.

The Python sources are shallowly embedded as executable Lean definitions:

* `src/restore_api_handler/handler.py` → namespace `RestoreApi`
* `src/restore_handler/restore_function.py` → namespace `RestoreWorker`
* `src/lambda_function.py` (backup orchestrator helpers) → namespace `BackupLambda`

External collaborators (boto3 EC2/KMS/SNS clients, `json.loads`, the ambient
clock) are modelled as explicit oracle parameters; every provider interaction
is additionally recorded in an observable call trace so that ordering and
absence of provider mutations can be stated.  JSON values are restricted to
the scalar shapes the handlers actually consume (null, bool, number, string);
response bodies, which the source builds as Python dicts before `json.dumps`,
are modelled structurally as key/value lists.
-/

/-- Scalar JSON value, covering exactly the shapes the handlers read from
request payloads (`null`, booleans, numbers, strings). -/
inductive JVal where
  | null : JVal
  | bool : Bool → JVal
  | num : Int → JVal
  | str : String → JVal
deriving DecidableEq, Repr

/-- A JSON object as an association list, modelling a Python dict
(first binding of a key wins, mirroring unique dict keys). -/
abbrev JObj := List (String × JVal)

/-- Python `d.get(k)`: the value bound to `k`, or `None` when absent. -/
def jget : JObj → String → Option JVal
  | [], _ => none
  | (k, v) :: rest, key => if k = key then some v else jget rest key

/-- Python truthiness of `d.get(k)`: `None`, `null`, `False`, `0` and the
empty string are falsy, everything else is truthy. -/
def jvTruthy : Option JVal → Bool
  | none => false
  | some JVal.null => false
  | some (JVal.bool b) => b
  | some (JVal.num n) => if n = 0 then false else true
  | some (JVal.str s) => if s = "" then false else true

/-- Python `str(...)` coercion for the scalar values the handlers pass to
provider calls (the claims only exercise string-valued fields). -/
def jvStr : JVal → String
  | JVal.null => "None"
  | JVal.bool b => if b then "True" else "False"
  | JVal.num n => toString n
  | JVal.str s => s

/-- Python truthiness of an optional string (`None` and `""` are falsy),
used for `if not worker_lambda_arn` and `if not request_body`. -/
def optStrTruthy : Option String → Bool
  | none => false
  | some s => if s = "" then false else true

/-- An HTTP-style Lambda response: a status code and the dict that the
source serialises with `json.dumps` as the body.  The constant
`Content-Type` header set by the API handler is not modelled. -/
structure HttpResp where
  statusCode : Nat
  body : JObj
deriving DecidableEq, Repr

namespace RestoreWorker

/-- The Python exceptions that `restore_function.handler` distinguishes in
its `except` clauses. -/
inductive Exn where
  | jsonDecode : Exn
  | clientError (code : String) (opName : String) (msg : String) : Exn
  | generic (msg : String) : Exn
deriving DecidableEq, Repr

/-- `str(e)` for a botocore `ClientError`. -/
def clientErrorStr (code opName msg : String) : String :=
  "An error occurred (" ++ code ++ ") when calling the " ++ opName ++
    " operation: " ++ msg

/-- `_create_error_response(status_code, message)` from
`restore_function.py`: the standardized error response. -/
def _create_error_response (statusCode : Nat) (message : String) : HttpResp :=
  { statusCode := statusCode, body := [("message", JVal.str message)] }

/-- The responses produced by the three `except` clauses wrapping the body
of `handler` (`json.JSONDecodeError` / `ClientError, ParamValidationError` /
`Exception`). -/
def exnResponse : Exn → HttpResp
  | Exn.jsonDecode =>
      _create_error_response 400 "Invalid JSON format in request body."
  | Exn.clientError code opName msg =>
      _create_error_response 500
        ("An AWS service error occurred: " ++ clientErrorStr code opName msg)
  | Exn.generic msg =>
      _create_error_response 500 ("An unexpected error occurred: " ++ msg)

/-- Observable calls the restore worker can make against its collaborators.
`publish` models an SNS notification; the constructor exists so that the
absence of notifications in the worker is statable as a trace property. -/
inductive Call where
  | describeSnapshots (snapshotId : String)
  | createVolume (snapshotId : String) (availabilityZone : String)
  | waitVolumeAvailable (volumeId : String)
  | runInstances (amiId instanceType subnetId availabilityZone : String)
  | waitInstanceRunning (instanceId : String)
  | attachVolume (instanceId volumeId deviceName : String)
  | publish (subject message : String)
deriving DecidableEq, Repr

/-- Oracle for the EC2 client used by the restore worker: each field gives
the provider outcome of the corresponding boto3 call (`none` / `Except.ok`
means the call succeeds, an `Exn` means it raises). -/
structure Ec2 where
  describeSnapshots : String → Option Exn
  createVolume : String → String → Except Exn String
  waitVolumeAvailable : String → Option Exn
  runInstances : String → String → String → String → Except Exn String
  waitInstanceRunning : String → Option Exn
  attachVolume : String → String → String → Option Exn

/-- `_verify_snapshot_exists`: calls `describe_snapshots`; a
`InvalidSnapshot.NotFound` client error is re-raised as a distinct
`ClientError` with code `404` and a "not found" message, any other error is
re-raised unchanged. -/
def _verify_snapshot_exists (ec2 : Ec2) (snapshotId : String) :
    Option Exn × List Call :=
  (match ec2.describeSnapshots snapshotId with
    | none => none
    | some (Exn.clientError code opName msg) =>
        if code = "InvalidSnapshot.NotFound" then
          some (Exn.clientError "404" "DescribeSnapshots"
            ("Snapshot \x27" ++ snapshotId ++ "\x27 not found."))
        else some (Exn.clientError code opName msg)
    | some e => some e,
   [Call.describeSnapshots snapshotId])

/-- `_create_volume`: `create_volume` from the snapshot in the given zone
(tagging is part of the provider call and not separately observable). -/
def _create_volume (ec2 : Ec2) (snapshotId az : String) :
    Except Exn String × List Call :=
  (ec2.createVolume snapshotId az, [Call.createVolume snapshotId az])

/-- `_launch_instance`: `run_instances` with the given image, type, subnet
and placement zone. -/
def _launch_instance (ec2 : Ec2) (amiId instanceType subnetId az : String) :
    Except Exn String × List Call :=
  (ec2.runInstances amiId instanceType subnetId az,
   [Call.runInstances amiId instanceType subnetId az])

/-- `_attach_volume`: `attach_volume` of the volume to the instance at the
given device name. -/
def _attach_volume (ec2 : Ec2) (instanceId volumeId deviceName : String) :
    Option Exn × List Call :=
  (ec2.attachVolume instanceId volumeId deviceName,
   [Call.attachVolume instanceId volumeId deviceName])

/-- The provider-facing steps of `handler` once the request body has been
parsed and `snapshot_id` / `availability_zone` found truthy: verify the
snapshot, create the volume, and optionally wait / launch / wait / attach
when `launch_instance` is truthy. -/
def restoreSteps (ec2 : Ec2) (body : JObj) (snapshotId az : String) :
    HttpResp × List Call :=
  match _verify_snapshot_exists ec2 snapshotId with
  | (some e, calls) => (exnResponse e, calls)
  | (none, calls0) =>
    match _create_volume ec2 snapshotId az with
    | (Except.error e, calls1) => (exnResponse e, calls0 ++ calls1)
    | (Except.ok volumeId, calls1) =>
      let calls2 := calls0 ++ calls1
      if jvTruthy (jget body "launch_instance") then
        if !(jvTruthy (jget body "instance_type") && jvTruthy (jget body "ami_id")
              && jvTruthy (jget body "subnet_id")) then
          (_create_error_response 400
            "Missing required parameters for instance launch: instance_type, ami_id, and subnet_id are required.",
           calls2)
        else
          match ec2.waitVolumeAvailable volumeId with
          | some e => (exnResponse e, calls2 ++ [Call.waitVolumeAvailable volumeId])
          | none =>
            let calls3 := calls2 ++ [Call.waitVolumeAvailable volumeId]
            let amiId := jvStr ((jget body "ami_id").getD JVal.null)
            let instanceType := jvStr ((jget body "instance_type").getD JVal.null)
            let subnetId := jvStr ((jget body "subnet_id").getD JVal.null)
            match _launch_instance ec2 amiId instanceType subnetId az with
            | (Except.error e, calls4) => (exnResponse e, calls3 ++ calls4)
            | (Except.ok instanceId, calls4) =>
              let calls5 := calls3 ++ calls4
              match ec2.waitInstanceRunning instanceId with
              | some e => (exnResponse e, calls5 ++ [Call.waitInstanceRunning instanceId])
              | none =>
                let calls6 := calls5 ++ [Call.waitInstanceRunning instanceId]
                let deviceName :=
                  match jget body "device_name" with
                  | none => "/dev/sdf"
                  | some v => jvStr v
                match _attach_volume ec2 instanceId volumeId deviceName with
                | (some e, calls7) => (exnResponse e, calls6 ++ calls7)
                | (none, calls7) =>
                  ({ statusCode := 200,
                     body := [("message", JVal.str "Instance launch and volume attachment initiated successfully."),
                              ("instance_id", JVal.str instanceId),
                              ("volume_id", JVal.str volumeId)] },
                   calls6 ++ calls7)
      else
        ({ statusCode := 200,
           body := [("message", JVal.str "Volume restore initiated successfully."),
                    ("volume_id", JVal.str volumeId)] },
         calls2)

/-- `handler(event, context)` of `restore_function.py`.  `parse` models
`json.loads` on strings; the EC2 client is the `ec2` oracle; `event` is the
already-deserialized Lambda event object.  Returns the response together
with the trace of provider calls made (in order).  The inner match models
`event.get("body", "\x7b\x7d")` followed by `json.loads`: an absent key
yields the literal empty-object string, a non-string value makes
`json.loads` raise `TypeError`, caught by the final generic `except`. -/
def handler (parse : String → Except String JObj) (ec2 : Ec2)
    (event : JObj) : HttpResp × List Call :=
  match (match jget event "body" with
         | none => Except.ok "\x7b\x7d"
         | some (JVal.str s) => Except.ok s
         | some _ => Except.error
             (Exn.generic "the JSON object must be str, bytes or bytearray, not dict")) with
  | Except.error e => (exnResponse e, [])
  | Except.ok raw =>
    match parse raw with
    | Except.error _ => (exnResponse Exn.jsonDecode, [])
    | Except.ok body =>
      if !(jvTruthy (jget body "snapshot_id") && jvTruthy (jget body "availability_zone")) then
        (_create_error_response 400
          "Missing required parameters: snapshot_id and availability_zone", [])
      else
        restoreSteps ec2 body (jvStr ((jget body "snapshot_id").getD JVal.null))
          (jvStr ((jget body "availability_zone").getD JVal.null))

end RestoreWorker

namespace RestoreApi

/-- Observable effect of the API front door: the asynchronous
(`InvocationType="Event"`) invocation of the worker Lambda with the
serialized payload. -/
inductive ApiCall where
  | invokeLambda (functionName : String) (payload : JObj)
deriving DecidableEq, Repr

/-- `lambda_handler(event, context)` of `restore_api_handler/handler.py`.
`parse` models `json.loads`; `workerLambdaArn` models
`os.environ.get("WORKER_LAMBDA_ARN")`; `eventBody` models `event.get("body")`
(API Gateway delivers the raw body as a string or `null`).  Returns the
response and the list of worker invocations dispatched. -/
def lambda_handler (parse : String → Except String JObj)
    (workerLambdaArn : Option String) (eventBody : Option String) :
    HttpResp × List ApiCall :=
  if !(optStrTruthy workerLambdaArn) then
    ({ statusCode := 500,
       body := [("error", JVal.str "Server configuration error"),
                ("message", JVal.str "WORKER_LAMBDA_ARN not set")] }, [])
  else
    if !(optStrTruthy eventBody) then
      ({ statusCode := 400,
         body := [("error", JVal.str "Bad Request"),
                  ("message", JVal.str "Request body is required")] }, [])
    else
      match parse (eventBody.getD "") with
      | Except.error e =>
        ({ statusCode := 400,
           body := [("error", JVal.str "Bad Request"),
                    ("message", JVal.str ("Invalid JSON format: " ++ e))] }, [])
      | Except.ok payload =>
        if (jget payload "snapshot_id").isNone then
          ({ statusCode := 400,
             body := [("error", JVal.str "Bad Request"),
                      ("message", JVal.str "Missing required field: snapshot_id")] }, [])
        else
          ({ statusCode := 202,
             body := [("message", JVal.str "Restore request accepted and is being processed asynchronously. A notification will be sent upon completion.")] },
           [ApiCall.invokeLambda (workerLambdaArn.getD "") payload])

end RestoreApi

namespace BackupLambda

/-- A botocore `ClientError` as observed by `lambda_function.py`: the error
code and message the handlers branch on or log. -/
structure ClientErr where
  code : String
  msg : String
deriving DecidableEq, Repr

/-- Observable calls and log events of the backup orchestrator helpers.
Log events are included so that "logged and skipped" behaviour is statable
as a trace property. -/
inductive BCall where
  | describeVolumes (instanceId : String)
  | createSnapshot (volumeId : String)
  | logWarningNoVolumes (instanceId : String)
  | logErrorCreate (instanceId : String)
  | describeKey (keyArn : String)
  | waitSnapshotsCompleted (snapshotIds : List String)
  | describeSnapshot (snapshotId : String)
  | copySnapshot (snapshotId : String)
  | logErrorCopy (snapshotId : String)
  | describeSnapshotsOwned
  | deleteSnapshot (snapshotId : String)
  | logErrorDelete (snapshotId : String)
deriving DecidableEq, Repr

/-- Oracle for the EC2 calls made by `create_snapshots`. -/
structure CaptureEc2 where
  describeVolumes : String → Except ClientErr (List String)
  createSnapshot : String → Except ClientErr String

/-- The inner `for vol in volumes` loop of `create_snapshots`: snapshots
volumes in order until the first `ClientError`, which (in the source)
propagates to the per-instance `except` clause; returns the calls made, the
snapshot ids collected before the failure, and the error if one occurred. -/
def snapshotVolumesLoop (ec2 : CaptureEc2) :
    List String → List BCall × List String × Option ClientErr
  | [] => ([], [], none)
  | volId :: rest =>
    match ec2.createSnapshot volId with
    | Except.error e => ([BCall.createSnapshot volId], [], some e)
    | Except.ok snapId =>
      (BCall.createSnapshot volId :: (snapshotVolumesLoop ec2 rest).1,
       snapId :: (snapshotVolumesLoop ec2 rest).2.1,
       (snapshotVolumesLoop ec2 rest).2.2)

/-- One iteration of the `for instance_id in instance_ids` loop of
`create_snapshots`: describe the attached volumes, warn and skip when there
are none, snapshot each volume, and on a `ClientError` log the per-instance
error and move on (the `try` block spans the whole instance, so the error
also abandons the instance's remaining volumes). -/
def processInstance (ec2 : CaptureEc2) (instanceId : String) :
    List BCall × List String :=
  match ec2.describeVolumes instanceId with
  | Except.error _ =>
      ([BCall.describeVolumes instanceId, BCall.logErrorCreate instanceId], [])
  | Except.ok [] =>
      ([BCall.describeVolumes instanceId, BCall.logWarningNoVolumes instanceId], [])
  | Except.ok vols =>
    if (snapshotVolumesLoop ec2 vols).2.2.isSome then
      (BCall.describeVolumes instanceId :: (snapshotVolumesLoop ec2 vols).1
         ++ [BCall.logErrorCreate instanceId],
       (snapshotVolumesLoop ec2 vols).2.1)
    else
      (BCall.describeVolumes instanceId :: (snapshotVolumesLoop ec2 vols).1,
       (snapshotVolumesLoop ec2 vols).2.1)

/-- `create_snapshots(ec2_client, instance_ids)`: returns the trace of
calls/log events and the ids of every snapshot successfully requested. -/
def create_snapshots (ec2 : CaptureEc2) : List String → List BCall × List String
  | [] => ([], [])
  | instanceId :: rest =>
    ((processInstance ec2 instanceId).1 ++ (create_snapshots ec2 rest).1,
     (processInstance ec2 instanceId).2 ++ (create_snapshots ec2 rest).2)

/-- Oracle for the collaborators of `copy_snapshots_to_dr`: the KMS
`describe_key` outcome, the `snapshot_completed` waiter outcome, and the
per-snapshot `describe_snapshots` (source tags) and `copy_snapshot`
outcomes. -/
structure DrEnv where
  describeKeyResult : Option ClientErr
  waitResult : Option String
  describeSnapshotTag : String → Except ClientErr (Option String)
  copySnapshot : String → Except ClientErr String

/-- The `for snap_id in snapshot_ids` loop of `copy_snapshots_to_dr`:
per-item errors (from the source describe or from the copy) are logged and
the loop continues with the next snapshot. -/
def copyLoop (env : DrEnv) : List String → List BCall × List String
  | [] => ([], [])
  | snapId :: rest =>
    match env.describeSnapshotTag snapId with
    | Except.error _ =>
        (BCall.describeSnapshot snapId :: BCall.logErrorCopy snapId :: (copyLoop env rest).1,
         (copyLoop env rest).2)
    | Except.ok _tag =>
      match env.copySnapshot snapId with
      | Except.error _ =>
          (BCall.describeSnapshot snapId :: BCall.copySnapshot snapId ::
             BCall.logErrorCopy snapId :: (copyLoop env rest).1,
           (copyLoop env rest).2)
      | Except.ok newId =>
          (BCall.describeSnapshot snapId :: BCall.copySnapshot snapId :: (copyLoop env rest).1,
           newId :: (copyLoop env rest).2)

/-- `copy_snapshots_to_dr(ec2_primary, ec2_dr, dr_region, snapshot_ids,
dr_kms_key_arn)`: empty input returns immediately; otherwise validate the
DR KMS key (failure raises, aborting the stage), wait for all source
snapshots to complete (failure raises), then copy each snapshot with
per-item error isolation; an empty aggregate result raises. -/
def copy_snapshots_to_dr (env : DrEnv) (drRegion : String)
    (snapshotIds : List String) (drKmsKeyArn : String) :
    Except String (List String) × List BCall :=
  match snapshotIds with
  | [] => (Except.ok [], [])
  | _ :: _ =>
    match env.describeKeyResult with
    | some e =>
        (Except.error ("Cannot access KMS key " ++ drKmsKeyArn ++ " in region "
           ++ drRegion ++ ": " ++ e.msg),
         [BCall.describeKey drKmsKeyArn])
    | none =>
      match env.waitResult with
      | some m =>
          (Except.error ("Snapshots did not complete within expected time: " ++ m),
           [BCall.describeKey drKmsKeyArn, BCall.waitSnapshotsCompleted snapshotIds])
      | none =>
        (if (copyLoop env snapshotIds).2.isEmpty then
           Except.error "Failed to copy any snapshots to DR region"
         else Except.ok (copyLoop env snapshotIds).2,
         BCall.describeKey drKmsKeyArn :: BCall.waitSnapshotsCompleted snapshotIds ::
           (copyLoop env snapshotIds).1)

/-- A snapshot record as seen by the retention stage: identifier, creation
timestamp (microseconds, the resolution of Python datetimes), the
`CreatedBy` tag if any, and whether the account owns it. -/
structure SnapRecord where
  snapshotId : String
  startTime : Int
  createdBy : Option String
  ownedBySelf : Bool
deriving DecidableEq, Repr

/-- The filter of the paginated `describe_snapshots` query in
`cleanup_snapshots`: `tag:CreatedBy = SmartVaultLambda` and
`OwnerIds=["self"]`. -/
def matchesFilter (r : SnapRecord) : Bool :=
  r.createdBy = some "SmartVaultLambda" && r.ownedBySelf

/-- Microseconds in a day: `datetime.timedelta(days=1)`. -/
def microsPerDay : Int := 86400000000

/-- `retention_date = datetime.datetime.now(utc) - timedelta(days=retention_days)`. -/
def retentionCutoff (now : Int) (retentionDays : Nat) : Int :=
  now - (retentionDays : Int) * microsPerDay

/-- The per-snapshot body of the `cleanup_snapshots` scan over the filtered
listing: delete when `StartTime < retention_date`; a `ClientError` from the
delete is logged and the scan continues. Returns the calls made and the
`snapshots_deleted` counter. -/
def cleanupLoop (deleteOk : String → Bool) (cutoff : Int) :
    List SnapRecord → List BCall × Nat
  | [] => ([], 0)
  | r :: rest =>
    if r.startTime < cutoff then
      if deleteOk r.snapshotId then
        (BCall.deleteSnapshot r.snapshotId :: (cleanupLoop deleteOk cutoff rest).1,
         (cleanupLoop deleteOk cutoff rest).2 + 1)
      else
        (BCall.deleteSnapshot r.snapshotId :: BCall.logErrorDelete r.snapshotId ::
           (cleanupLoop deleteOk cutoff rest).1,
         (cleanupLoop deleteOk cutoff rest).2)
    else cleanupLoop deleteOk cutoff rest

/-- Result of `cleanup_snapshots`: the call trace, the final value of the
logged `snapshots_deleted` counter, and the Python return value.  The
source is annotated `-> None` and has no return statement, so `retVal` is
always `none`. -/
structure CleanupResult where
  calls : List BCall
  deletedCount : Nat
  retVal : Option Nat
deriving DecidableEq, Repr

/-- `cleanup_snapshots(ec2_client, retention_days, region_name)`.  `store`
is the provider's snapshot population (the paginated query filters it by
ownership tag and owner); `deleteOk` gives each `delete_snapshot` outcome;
`now` models `datetime.datetime.now(timezone.utc)` in microseconds. -/
def cleanup_snapshots (store : List SnapRecord) (deleteOk : String → Bool)
    (now : Int) (retentionDays : Nat) (_regionName : String) : CleanupResult :=
  { calls := BCall.describeSnapshotsOwned ::
      (cleanupLoop deleteOk (retentionCutoff now retentionDays)
        (store.filter matchesFilter)).1,
    deletedCount :=
      (cleanupLoop deleteOk (retentionCutoff now retentionDays)
        (store.filter matchesFilter)).2,
    retVal := none }

/-- Recognises the `delete_snapshot` calls in a backup trace. -/
def isDeleteCall : BCall → Bool
  | BCall.deleteSnapshot _ => true
  | _ => false

/-- Recognises the `copy_snapshot` calls in a backup trace. -/
def isCopyCall : BCall → Bool
  | BCall.copySnapshot _ => true
  | _ => false

end BackupLambda

/-!
Concrete oracle instantiations used by the closed theorems and the
witnesses of the universally quantified ones.
-/

/-- A concrete stand-in for `json.loads` mapping a handful of fixed body
strings to parsed objects (and everything else to a decode error), used to
instantiate the `parse` oracle in closed theorems and witnesses. -/
def parseDemo : String → Except String JObj := fun s =>
  if s = "\x7b\x7d" then Except.ok []
  else if s = "demo" then Except.ok [("snapshot_id", JVal.str "snap-123")]
  else if s = "b_c2" then
    Except.ok [("snapshot_id", JVal.str "snap-1"),
               ("availability_zone", JVal.str "us-east-1a"),
               ("launch_instance", JVal.bool true),
               ("ami_id", JVal.str "ami-1"),
               ("subnet_id", JVal.str "subnet-1")]
  else if s = "b_c3" then
    Except.ok [("snapshot_id", JVal.str "snap-1"),
               ("launch_instance", JVal.bool true),
               ("instance_type", JVal.str "t2.micro"),
               ("ami_id", JVal.str "ami-1"),
               ("subnet_id", JVal.str "subnet-1")]
  else if s = "b_c4" then
    Except.ok [("snapshot_id", JVal.str "snap-1"),
               ("availability_zone", JVal.str "us-east-1a")]
  else if s = "b_c10" then
    Except.ok [("snapshot_id", JVal.str "snap-404"),
               ("availability_zone", JVal.str "us-east-1a")]
  else Except.error "Expecting value: line 1 column 1 (char 0)"

/-- A concrete restore-worker EC2 oracle: every snapshot exists except
`snap-404` (which raises `InvalidSnapshot.NotFound`), and all mutations and
waits succeed deterministically. -/
def ec2Demo : RestoreWorker.Ec2 :=
  { describeSnapshots := fun sid =>
      if sid = "snap-404" then
        some (RestoreWorker.Exn.clientError "InvalidSnapshot.NotFound"
          "DescribeSnapshots" "The snapshot \x27snap-404\x27 does not exist.")
      else none,
    createVolume := fun _ _ => Except.ok "vol-restored-1",
    waitVolumeAvailable := fun _ => none,
    runInstances := fun _ _ _ _ => Except.ok "i-restored-1",
    waitInstanceRunning := fun _ => none,
    attachVolume := fun _ _ _ => none }

/-- Recognises SNS `publish` calls in a restore-worker trace. -/
def isPublishCall : RestoreWorker.Call → Bool
  | RestoreWorker.Call.publish _ _ => true
  | _ => false

/-- A concrete capture-stage oracle: instance `i-A` has volumes `vol-1` and
`vol-2`, instance `i-B` has volume `vol-3`, every other instance has no
volumes; snapshotting `vol-1` raises a `ClientError`, all other snapshot
requests succeed. -/
def captureEnvC5 : BackupLambda.CaptureEc2 :=
  { describeVolumes := fun i =>
      if i = "i-A" then Except.ok ["vol-1", "vol-2"]
      else if i = "i-B" then Except.ok ["vol-3"]
      else Except.ok [],
    createSnapshot := fun v =>
      if v = "vol-1" then
        Except.error { code := "SnapshotCreationPerVolumeRateExceeded", msg := "rate exceeded" }
      else Except.ok ("snap-" ++ v) }

/-- A concrete replication-stage oracle whose KMS `describe_key` call
fails; waits and copies would succeed if reached. -/
def drEnvFailKey : BackupLambda.DrEnv :=
  { describeKeyResult := some { code := "NotFoundException", msg := "Key not found" },
    waitResult := none,
    describeSnapshotTag := fun _ => Except.ok none,
    copySnapshot := fun s => Except.ok ("snap-dr-" ++ s) }

/-- A concrete snapshot population for the retention theorems, evaluated
with `now` = 1209600000000 µs and a 7-day retention (cutoff
604800000000 µs): one owned snapshot a microsecond older than the cutoff,
one exactly at the cutoff, one newer, and one foreign (untagged). -/
def storeRet : List BackupLambda.SnapRecord :=
  [ { snapshotId := "snap-old", startTime := 604799999999,
      createdBy := some "SmartVaultLambda", ownedBySelf := true },
    { snapshotId := "snap-edge", startTime := 604800000000,
      createdBy := some "SmartVaultLambda", ownedBySelf := true },
    { snapshotId := "snap-new", startTime := 1000000000000,
      createdBy := some "SmartVaultLambda", ownedBySelf := true },
    { snapshotId := "snap-foreign", startTime := 0,
      createdBy := none, ownedBySelf := true } ]

/-- C1: any payload the restore front door accepts and dispatches is a JSON
object whose top-level keys are the request fields; when it carries no
`body` key, the worker handler reads `event.get("body", "\x7b\x7d")`,
parses the empty object, finds `snapshot_id` and `availability_zone`
absent, and returns the 400 "Missing required parameters" response with an
empty provider-call trace — the composition of the two handlers never
reaches the restore steps, whatever the provider would have answered. -/
theorem c1_front_door_worker_composition
    (parse : String → Except String JObj) (arn : String)
    (eventBody : Option String) (payload : JObj) (ec2 : RestoreWorker.Ec2)
    (_haccepted : (RestoreApi.lambda_handler parse (some arn) eventBody).2
        = [RestoreApi.ApiCall.invokeLambda arn payload])
    (hnobody : jget payload "body" = none)
    (hparse : parse "\x7b\x7d" = Except.ok []) :
    RestoreWorker.handler parse ec2 payload
      = (RestoreWorker._create_error_response 400
          "Missing required parameters: snapshot_id and availability_zone", []) := by
  simp [RestoreWorker.handler, hnobody, hparse, jget, jvTruthy]

/-- Witness for C1 at a concrete accepted request: the front door accepts
body `demo` (a payload holding only `snapshot_id`) and the worker then
rejects the dispatched payload with the 400 response and no provider
calls. -/
theorem c1_front_door_worker_composition_witness :
    RestoreWorker.handler parseDemo ec2Demo [("snapshot_id", JVal.str "snap-123")]
      = (RestoreWorker._create_error_response 400
          "Missing required parameters: snapshot_id and availability_zone", []) :=
  c1_front_door_worker_composition parseDemo "arn-1" (some "demo")
    [("snapshot_id", JVal.str "snap-123")] ec2Demo (by rfl) (by rfl) (by rfl)

/-- C9: classification of the restore front door.  When the worker
destination configuration is unset (or empty) it returns 500 without
invoking the worker; a missing/empty body, an unparseable body, or a
payload lacking `snapshot_id` yields 400 without invoking the worker;
otherwise the entire parsed payload is dispatched asynchronously to the
worker in a single invocation and the handler returns 202 immediately. -/
theorem c9_front_door_classification
    (parse : String → Except String JObj) (arnOpt : Option String)
    (eventBody : Option String) :
    (optStrTruthy arnOpt = false →
        (RestoreApi.lambda_handler parse arnOpt eventBody).1.statusCode = 500 ∧
        (RestoreApi.lambda_handler parse arnOpt eventBody).2 = [])
    ∧ (optStrTruthy arnOpt = true → optStrTruthy eventBody = false →
        (RestoreApi.lambda_handler parse arnOpt eventBody).1.statusCode = 400 ∧
        (RestoreApi.lambda_handler parse arnOpt eventBody).2 = [])
    ∧ (∀ s msg, optStrTruthy arnOpt = true → eventBody = some s → s ≠ "" →
        parse s = Except.error msg →
        (RestoreApi.lambda_handler parse arnOpt eventBody).1.statusCode = 400 ∧
        (RestoreApi.lambda_handler parse arnOpt eventBody).2 = [])
    ∧ (∀ s payload, optStrTruthy arnOpt = true → eventBody = some s → s ≠ "" →
        parse s = Except.ok payload → jget payload "snapshot_id" = none →
        (RestoreApi.lambda_handler parse arnOpt eventBody).1.statusCode = 400 ∧
        (RestoreApi.lambda_handler parse arnOpt eventBody).2 = [])
    ∧ (∀ arn s payload v, arnOpt = some arn → arn ≠ "" → eventBody = some s → s ≠ "" →
        parse s = Except.ok payload → jget payload "snapshot_id" = some v →
        RestoreApi.lambda_handler parse arnOpt eventBody
          = ({ statusCode := 202,
               body := [("message", JVal.str "Restore request accepted and is being processed asynchronously. A notification will be sent upon completion.")] },
             [RestoreApi.ApiCall.invokeLambda arn payload])) := by
  refine ⟨?_, ?_, ?_, ?_, ?_⟩
  · intro h
    simp [RestoreApi.lambda_handler, h]
  · intro h hb
    simp [RestoreApi.lambda_handler, h, hb]
  · intro s msg h hb hs hp
    subst hb
    cases arnOpt with
    | none => simp [optStrTruthy] at h
    | some a =>
      simp [optStrTruthy] at h
      simp [RestoreApi.lambda_handler, optStrTruthy, h, hp, hs]
  · intro s payload h hb hs hp hmiss
    subst hb
    cases arnOpt with
    | none => simp [optStrTruthy] at h
    | some a =>
      simp [optStrTruthy] at h
      simp [RestoreApi.lambda_handler, optStrTruthy, h, hp, hmiss, hs]
  · intro arn s payload v harn hne hb hs hp hsid
    subst harn
    subst hb
    simp [RestoreApi.lambda_handler, hp, hsid, optStrTruthy, hs, hne]

/-- Witness for C9 at a concrete valid request: worker destination set,
parseable body containing `snapshot_id` — the response is 202 and exactly
one asynchronous invocation carrying the whole payload is dispatched. -/
theorem c9_front_door_classification_witness :
    RestoreApi.lambda_handler parseDemo (some "arn-1") (some "demo")
      = ({ statusCode := 202,
           body := [("message", JVal.str "Restore request accepted and is being processed asynchronously. A notification will be sent upon completion.")] },
         [RestoreApi.ApiCall.invokeLambda "arn-1" [("snapshot_id", JVal.str "snap-123")]]) :=
  (c9_front_door_classification parseDemo (some "arn-1") (some "demo")).2.2.2.2
    "arn-1" "demo" [("snapshot_id", JVal.str "snap-123")] (JVal.str "snap-123")
    rfl (by decide) rfl (by decide) (by rfl) (by rfl)

/-- C2 (code evaluated at the failing input): for the request
`b_c2` = snapshot/zone present, `launch_instance` true, `instance_type`
missing, the worker does return a 400 failure for the missing launch
parameters — but only after issuing the `create_volume` provider mutation,
because the source validates the launch parameters after
`_create_volume`.  This refutes "failure outcome without calling
create-volume". -/
theorem c2_missing_launch_params_after_create_volume :
    RestoreWorker.handler parseDemo ec2Demo [("body", JVal.str "b_c2")]
      = (RestoreWorker._create_error_response 400
          "Missing required parameters for instance launch: instance_type, ami_id, and subnet_id are required.",
         [RestoreWorker.Call.describeSnapshots "snap-1",
          RestoreWorker.Call.createVolume "snap-1" "us-east-1a"])
    ∧ RestoreWorker.Call.createVolume "snap-1" "us-east-1a"
        ∈ (RestoreWorker.handler parseDemo ec2Demo [("body", JVal.str "b_c2")]).2 := by
  exact ⟨rfl, by decide⟩

/-- C3 (code evaluated at the failing input): the request `b_c3` carries a
snapshot identifier and a full provisioning block (instance type, image,
subnet) but no explicit availability zone; per the claimed validation rules
it should pass validation (zone derived from the subnet), yet the worker
rejects it with the 400 "Missing required parameters: snapshot_id and
availability_zone" response, making no provider call and never deriving a
zone from the subnet (the source has no describe-subnet call at all). -/
theorem c3_provisioning_without_zone_rejected :
    RestoreWorker.handler parseDemo ec2Demo [("body", JVal.str "b_c3")]
      = (RestoreWorker._create_error_response 400
          "Missing required parameters: snapshot_id and availability_zone", []) := rfl

/-- C4 (code evaluated at the failing input): a valid volume-only restore
(`b_c4`) completes with the 200 response, and the worker's trace contains
zero notification publishes — the source has no notification call on any
path, contradicting "sends exactly one notification describing the
outcome". -/
theorem c4_no_notification_sent :
    RestoreWorker.handler parseDemo ec2Demo [("body", JVal.str "b_c4")]
      = ({ statusCode := 200,
           body := [("message", JVal.str "Volume restore initiated successfully."),
                    ("volume_id", JVal.str "vol-restored-1")] },
         [RestoreWorker.Call.describeSnapshots "snap-1",
          RestoreWorker.Call.createVolume "snap-1" "us-east-1a"])
    ∧ ((RestoreWorker.handler parseDemo ec2Demo [("body", JVal.str "b_c4")]).2.countP
          isPublishCall) = 0 := by
  exact ⟨rfl, by decide⟩

/-- C10: for every restore request whose snapshot reference is present and
truthy together with an availability zone, if the provider raises
`InvalidSnapshot.NotFound` for that snapshot, the worker's outcome is the
500 failure response carrying the distinct re-raised classification — code
`404` with reason `Snapshot <id> not found.` rather than the provider's
generic error — and the trace is exactly the describe call: no volume is
created and no other mutation happens. -/
theorem c10_not_found_distinct_failure
    (parse : String → Except String JObj) (ec2 : RestoreWorker.Ec2)
    (event : JObj) (raw : String) (body : JObj) (sid az : String)
    (opName msg : String)
    (hbody : jget event "body" = some (JVal.str raw))
    (hparse : parse raw = Except.ok body)
    (hsid : jget body "snapshot_id" = some (JVal.str sid))
    (hsidne : sid ≠ "")
    (haz : jget body "availability_zone" = some (JVal.str az))
    (hazne : az ≠ "")
    (hnotfound : ec2.describeSnapshots sid
        = some (RestoreWorker.Exn.clientError "InvalidSnapshot.NotFound" opName msg)) :
    RestoreWorker.handler parse ec2 event
      = (RestoreWorker.exnResponse (RestoreWorker.Exn.clientError "404" "DescribeSnapshots"
            ("Snapshot \x27" ++ sid ++ "\x27 not found.")),
         [RestoreWorker.Call.describeSnapshots sid])
    ∧ (RestoreWorker.handler parse ec2 event).1.statusCode = 500 := by
  have h : RestoreWorker.handler parse ec2 event
      = (RestoreWorker.exnResponse (RestoreWorker.Exn.clientError "404" "DescribeSnapshots"
            ("Snapshot \x27" ++ sid ++ "\x27 not found.")),
         [RestoreWorker.Call.describeSnapshots sid]) := by
    simp [RestoreWorker.handler, hbody, hparse, hsid, haz, jvTruthy, hsidne, hazne, jvStr,
          RestoreWorker.restoreSteps, RestoreWorker._verify_snapshot_exists, hnotfound]
  exact ⟨h, by rw [h]; rfl⟩

/-- Witness for C10 at a concrete request: snapshot `snap-404` does not
exist in the `ec2Demo` provider; the worker returns the distinct 404
"not found" failure and only the describe call appears in the trace. -/
theorem c10_not_found_distinct_failure_witness :
    RestoreWorker.handler parseDemo ec2Demo [("body", JVal.str "b_c10")]
      = (RestoreWorker.exnResponse (RestoreWorker.Exn.clientError "404" "DescribeSnapshots"
            ("Snapshot \x27" ++ "snap-404" ++ "\x27 not found.")),
         [RestoreWorker.Call.describeSnapshots "snap-404"])
    ∧ (RestoreWorker.handler parseDemo ec2Demo [("body", JVal.str "b_c10")]).1.statusCode = 500 :=
  c10_not_found_distinct_failure parseDemo ec2Demo [("body", JVal.str "b_c10")]
    "b_c10" [("snapshot_id", JVal.str "snap-404"), ("availability_zone", JVal.str "us-east-1a")]
    "snap-404" "us-east-1a" "DescribeSnapshots" "The snapshot \x27snap-404\x27 does not exist."
    (by rfl) (by rfl) (by rfl) (by decide) (by rfl) (by decide) (by rfl)

/-- Counterexample for C5: with instance `i-A` holding volumes `vol-1` and
`vol-2` where snapshotting `vol-1` raises, the capture stage never attempts
`vol-2` — the per-instance `try` block means a volume failure does abort
the remaining volumes of the same instance (while the next instance,
`i-B`, is still processed). -/
theorem c5_volume_failure_skips_sibling_volumes :
    BackupLambda.BCall.createSnapshot "vol-1"
        ∈ (BackupLambda.create_snapshots captureEnvC5 ["i-A", "i-B"]).1
    ∧ BackupLambda.BCall.createSnapshot "vol-2"
        ∉ (BackupLambda.create_snapshots captureEnvC5 ["i-A", "i-B"]).1
    ∧ BackupLambda.BCall.createSnapshot "vol-3"
        ∈ (BackupLambda.create_snapshots captureEnvC5 ["i-A", "i-B"]).1 := by
  decide

/-- C5 as amended: in the capture stage, a provider failure while
snapshotting one volume is logged and aborts only the remaining volumes of
the *same* instance — processing of the remaining instances always
continues (each instance contributes its own trace prefix independently of
the others); a target with zero attached volumes is skipped with a warning
log, not an error; and the first failing volume ends its instance's volume
loop, leaving the instance's later volumes unattempted. -/
theorem c5_amended_per_instance_isolation
    (ec2 : BackupLambda.CaptureEc2) (i : String) (rest : List String) :
    ((BackupLambda.create_snapshots ec2 (i :: rest)).1
        = (BackupLambda.processInstance ec2 i).1 ++ (BackupLambda.create_snapshots ec2 rest).1)
    ∧ ((BackupLambda.create_snapshots ec2 (i :: rest)).2
        = (BackupLambda.processInstance ec2 i).2 ++ (BackupLambda.create_snapshots ec2 rest).2)
    ∧ (ec2.describeVolumes i = Except.ok [] →
        BackupLambda.processInstance ec2 i
          = ([BackupLambda.BCall.describeVolumes i, BackupLambda.BCall.logWarningNoVolumes i], []))
    ∧ (∀ v vs e, ec2.createSnapshot v = Except.error e →
        BackupLambda.snapshotVolumesLoop ec2 (v :: vs)
          = ([BackupLambda.BCall.createSnapshot v], [], some e))
    ∧ (∀ vols, ec2.describeVolumes i = Except.ok vols →
        (BackupLambda.snapshotVolumesLoop ec2 vols).2.2.isSome = true →
        BackupLambda.processInstance ec2 i
          = (BackupLambda.BCall.describeVolumes i :: (BackupLambda.snapshotVolumesLoop ec2 vols).1
               ++ [BackupLambda.BCall.logErrorCreate i],
             (BackupLambda.snapshotVolumesLoop ec2 vols).2.1)) := by
  refine ⟨rfl, rfl, ?_, ?_, ?_⟩
  · intro h
    simp [BackupLambda.processInstance, h]
  · intro v vs e h
    simp [BackupLambda.snapshotVolumesLoop, h]
  · intro vols h1 h2
    cases vols with
    | nil => simp [BackupLambda.snapshotVolumesLoop] at h2
    | cons v vs => simp [BackupLambda.processInstance, h1, h2]

/-- Witness for C5's amended statement at concrete inputs: an instance
with no volumes is skipped with the warning, and the failing volume
`vol-1` ends its volume loop immediately with no sibling attempts. -/
theorem c5_amended_per_instance_isolation_witness :
    BackupLambda.processInstance captureEnvC5 "i-X"
      = ([BackupLambda.BCall.describeVolumes "i-X", BackupLambda.BCall.logWarningNoVolumes "i-X"], [])
    ∧ BackupLambda.snapshotVolumesLoop captureEnvC5 ["vol-1", "vol-2"]
      = ([BackupLambda.BCall.createSnapshot "vol-1"], [],
         some { code := "SnapshotCreationPerVolumeRateExceeded", msg := "rate exceeded" }) := by
  refine ⟨?_, ?_⟩
  · exact (c5_amended_per_instance_isolation captureEnvC5 "i-X" []).2.2.1 (by rfl)
  · exact (c5_amended_per_instance_isolation captureEnvC5 "i-X" []).2.2.2.1 "vol-1" ["vol-2"]
      { code := "SnapshotCreationPerVolumeRateExceeded", msg := "rate exceeded" } (by rfl)

/-- C6: for every non-empty snapshot batch, the replication stage's KMS
key check is the very first collaborator interaction (it precedes the
completion wait and every copy attempt), and when the key check fails the
stage aborts with the configuration error, its trace being exactly the key
check: zero copy requests are issued. -/
theorem c6_key_check_first_and_aborts
    (env : BackupLambda.DrEnv) (drRegion : String) (ids : List String)
    (kmsArn : String) (hne : ids ≠ []) :
    ((BackupLambda.copy_snapshots_to_dr env drRegion ids kmsArn).2.head?
        = some (BackupLambda.BCall.describeKey kmsArn))
    ∧ (∀ e, env.describeKeyResult = some e →
        (BackupLambda.copy_snapshots_to_dr env drRegion ids kmsArn).2
            = [BackupLambda.BCall.describeKey kmsArn]
        ∧ ((BackupLambda.copy_snapshots_to_dr env drRegion ids kmsArn).2.countP
              BackupLambda.isCopyCall) = 0
        ∧ (BackupLambda.copy_snapshots_to_dr env drRegion ids kmsArn).1
            = Except.error ("Cannot access KMS key " ++ kmsArn ++ " in region "
                ++ drRegion ++ ": " ++ e.msg)) := by
  cases ids with
  | nil => exact absurd rfl hne
  | cons a l =>
    constructor
    · cases hk : env.describeKeyResult with
      | some e => simp [BackupLambda.copy_snapshots_to_dr, hk]
      | none =>
        cases hw : env.waitResult with
        | some m => simp [BackupLambda.copy_snapshots_to_dr, hk, hw]
        | none => simp [BackupLambda.copy_snapshots_to_dr, hk, hw]
    · intro e hk
      refine ⟨?_, ?_, ?_⟩ <;>
        simp [BackupLambda.copy_snapshots_to_dr, hk, BackupLambda.isCopyCall]

/-- Witness for C6 at a concrete failing key: the replication stage's
trace is exactly the key check and the result is the configuration
error. -/
theorem c6_key_check_first_and_aborts_witness :
    (BackupLambda.copy_snapshots_to_dr drEnvFailKey "us-west-2" ["snap-1"] "key-arn").2
      = [BackupLambda.BCall.describeKey "key-arn"]
    ∧ (BackupLambda.copy_snapshots_to_dr drEnvFailKey "us-west-2" ["snap-1"] "key-arn").1
      = Except.error ("Cannot access KMS key " ++ "key-arn" ++ " in region "
          ++ "us-west-2" ++ ": " ++ "Key not found") := by
  obtain ⟨-, h2⟩ := c6_key_check_first_and_aborts drEnvFailKey "us-west-2" ["snap-1"]
    "key-arn" (by decide)
  obtain ⟨ha, -, hc⟩ := h2 _ rfl
  exact ⟨ha, hc⟩

/-- The delete calls of the retention scan are exactly one per filtered
record strictly older than the cutoff, independent of delete outcomes. -/
theorem cleanupLoop_calls (delOk : String → Bool) (cutoff : Int)
    (l : List BackupLambda.SnapRecord) :
    (BackupLambda.cleanupLoop delOk cutoff l).1.filter BackupLambda.isDeleteCall
      = (l.filter (fun r => decide (r.startTime < cutoff))).map
          (fun r => BackupLambda.BCall.deleteSnapshot r.snapshotId) := by
  induction l with
  | nil => rfl
  | cons r rest ih =>
    by_cases h : r.startTime < cutoff
    · by_cases hd : delOk r.snapshotId
      · simp [BackupLambda.cleanupLoop, h, hd, BackupLambda.isDeleteCall, ih]
      · simp [BackupLambda.cleanupLoop, h, hd, BackupLambda.isDeleteCall, ih]
    · simp [BackupLambda.cleanupLoop, h, ih]

/-- The `snapshots_deleted` counter of the retention scan counts exactly
the strictly-older filtered records whose delete succeeded. -/
theorem cleanupLoop_count (delOk : String → Bool) (cutoff : Int)
    (l : List BackupLambda.SnapRecord) :
    (BackupLambda.cleanupLoop delOk cutoff l).2
      = ((l.filter (fun r => decide (r.startTime < cutoff))).filter
           (fun r => delOk r.snapshotId)).length := by
  induction l with
  | nil => rfl
  | cons r rest ih =>
    by_cases h : r.startTime < cutoff
    · by_cases hd : delOk r.snapshotId
      · simp [BackupLambda.cleanupLoop, h, hd, ih]
      · simp [BackupLambda.cleanupLoop, h, hd, ih]
    · simp [BackupLambda.cleanupLoop, h, ih]

/-- C7: with every `delete_snapshot` call succeeding, a retention
invocation requests deletion of exactly the ownership-filtered snapshots
whose creation timestamp is strictly before `now - retentionDays`
(microsecond resolution), the deleted count equals the number of those
snapshots, and any record whose timestamp equals the cutoff is not among
the deleted ones. -/
theorem c7_retention_strict_cutoff
    (store : List BackupLambda.SnapRecord) (delOk : String → Bool)
    (now : Int) (days : Nat) (regionName : String)
    (hall : ∀ s, delOk s = true) :
    ((BackupLambda.cleanup_snapshots store delOk now days regionName).calls.filter
        BackupLambda.isDeleteCall
      = ((store.filter BackupLambda.matchesFilter).filter
           (fun r => decide (r.startTime < BackupLambda.retentionCutoff now days))).map
          (fun r => BackupLambda.BCall.deleteSnapshot r.snapshotId))
    ∧ ((BackupLambda.cleanup_snapshots store delOk now days regionName).deletedCount
      = ((store.filter BackupLambda.matchesFilter).filter
           (fun r => decide (r.startTime < BackupLambda.retentionCutoff now days))).length)
    ∧ (∀ r, r ∈ store → r.startTime = BackupLambda.retentionCutoff now days →
        r ∉ (store.filter BackupLambda.matchesFilter).filter
              (fun r2 => decide (r2.startTime < BackupLambda.retentionCutoff now days))) := by
  refine ⟨?_, ?_, ?_⟩
  · simp [BackupLambda.cleanup_snapshots, BackupLambda.isDeleteCall, cleanupLoop_calls]
  · have hfull : ∀ m : List BackupLambda.SnapRecord,
        m.filter (fun r => delOk r.snapshotId) = m :=
      fun m => List.filter_eq_self.mpr (fun a _ => hall _)
    simp [BackupLambda.cleanup_snapshots, cleanupLoop_count, hfull]
  · intro r _ hEq hmem
    have h2 := (List.mem_filter.mp hmem).2
    simp [hEq] at h2

/-- Witness for C7 at a concrete population: of the owned snapshots, only
the one a microsecond older than the cutoff is deleted (the one exactly at
the cutoff and the newer one are retained, as is the foreign snapshot). -/
theorem c7_retention_strict_cutoff_witness :
    ((BackupLambda.cleanup_snapshots storeRet (fun _ => true) 1209600000000 7
        "Primary Region").calls.filter BackupLambda.isDeleteCall
      = [BackupLambda.BCall.deleteSnapshot "snap-old"])
    ∧ (BackupLambda.cleanup_snapshots storeRet (fun _ => true) 1209600000000 7
        "Primary Region").deletedCount = 1 := by
  obtain ⟨h1, h2, -⟩ := c7_retention_strict_cutoff storeRet (fun _ => true)
    1209600000000 7 "Primary Region" (fun _ => rfl)
  exact ⟨h1.trans (by decide), h2.trans (by decide)⟩

/-- Counterexample for C8: at a concrete invocation with one successful
deletion, the Python function's return value is `None` — the count of
successful deletions is computed and logged but not returned to the
caller. -/
theorem c8_returns_none_not_count :
    (BackupLambda.cleanup_snapshots storeRet (fun _ => true) 1209600000000 7
        "DR Region").retVal = none
    ∧ (BackupLambda.cleanup_snapshots storeRet (fun _ => true) 1209600000000 7
        "DR Region").deletedCount = 1
    ∧ (BackupLambda.cleanup_snapshots storeRet (fun _ => true) 1209600000000 7
        "DR Region").retVal
        ≠ some (BackupLambda.cleanup_snapshots storeRet (fun _ => true) 1209600000000 7
            "DR Region").deletedCount := by
  refine ⟨rfl, by decide, by decide⟩

/-- C8 as amended: per-item delete failures never abort the retention
scan — every ownership-filtered snapshot older than the cutoff receives
its delete call regardless of earlier failures, so the stage always
completes; the count of successful deletions is tracked (and logged) as
`snapshots_deleted`; but the function returns `None`, not the count. -/
theorem c8_amended_scan_completes_count_logged_not_returned
    (store : List BackupLambda.SnapRecord) (delOk : String → Bool)
    (now : Int) (days : Nat) (regionName : String) :
    ((BackupLambda.cleanup_snapshots store delOk now days regionName).calls.filter
        BackupLambda.isDeleteCall
      = ((store.filter BackupLambda.matchesFilter).filter
           (fun r => decide (r.startTime < BackupLambda.retentionCutoff now days))).map
          (fun r => BackupLambda.BCall.deleteSnapshot r.snapshotId))
    ∧ ((BackupLambda.cleanup_snapshots store delOk now days regionName).deletedCount
      = (((store.filter BackupLambda.matchesFilter).filter
           (fun r => decide (r.startTime < BackupLambda.retentionCutoff now days))).filter
           (fun r => delOk r.snapshotId)).length)
    ∧ (BackupLambda.cleanup_snapshots store delOk now days regionName).retVal = none := by
  refine ⟨?_, ?_, rfl⟩
  · simp [BackupLambda.cleanup_snapshots, BackupLambda.isDeleteCall, cleanupLoop_calls]
  · simp [BackupLambda.cleanup_snapshots, cleanupLoop_count]
